import Mathlib

/-!
Shallow embedding of the TWWheaterBot forecast-analysis and window-tracking
core (src/bot/weather/analyzer.py, src/bot/notifications/notifier.py,
src/bot/database/db.py), together with theorems settling the spec claims.

Numeric weather values are embedded as rationals, wind directions and
tolerances as integers, hours as naturals.  Python dictionaries with
optional keys are embedded as structures of `Option` fields; `dict.get`
with a default becomes `Option.getD`.  The wall clock (`datetime.now`)
is an explicit `Timestamp` argument.  A Python `IndexError` reachable in
`_find_continuous_windows` is embedded by returning `Option` (`none` =
the exception).
-/

attribute [local semireducible] Rat.mul Rat.add Rat.sub Rat.inv Rat.ofScientific

namespace TWWB

/-- Lexicographic comparison of character lists by code point, embedding
Python's string `<` as used by `sorted` on date strings (strict part). -/
def charListLt : List Char → List Char → Bool
  | [], [] => false
  | [], _ :: _ => true
  | _ :: _, [] => false
  | a :: as, b :: bs => if a = b then charListLt as bs else decide (a < b)

/-- Lexicographic string comparison by code point (strict). -/
def strLt (a b : String) : Bool := charListLt a.data b.data

/-- Lexicographic string comparison by code point (non-strict). -/
def strLe (a b : String) : Bool := strLt a b || a == b

/-- Insertion into a list sorted by the boolean comparator `le`
(used to embed Python's `sorted`/`list.sort`). -/
def insertLe {α : Type} (le : α → α → Bool) (a : α) : List α → List α
  | [] => [a]
  | b :: t => if le a b then a :: b :: t else b :: insertLe le a t

/-- Insertion sort by the boolean comparator `le`
(embeds Python's `sorted`/`list.sort`). -/
def sortLe {α : Type} (le : α → α → Bool) : List α → List α
  | [] => []
  | a :: t => insertLe le a (sortLe le t)

/-- A point in time, as the analyzer observes it: the `YYYY-MM-DD` date
string (Python `strftime`) and the hour 0-23, plus the minute so that two
distinct wall-clock readings within one hour stay distinguishable. -/
structure Timestamp where
  date_str : String
  hour : Nat
  minute : Nat := 0
deriving DecidableEq

/-- Location rule set (src/bot/database/models.py, class Location), with the
wind-direction JSON string already parsed to a list (models.py,
`get_wind_directions_list`). -/
structure Location where
  id : Int
  name : String
  time_window_start : Nat
  time_window_end : Nat
  temp_min : ℚ
  humidity_max : ℚ
  wind_speed_max : ℚ
  wind_directions : List Int
  wind_direction_tolerance : Int
  dew_point_spread_min : ℚ
  required_conditions_duration_hours : Nat
  precipitation_probability_max : ℚ
deriving DecidableEq

/-- One raw provider hourly entry, as consumed by
`_parse_all_hourly_data`: fields that may be absent from the provider
dictionary are `Option`s; the timestamp is assumed already valid
(the normalizer is an external collaborator) and is carried decomposed
into date string and hour. -/
structure RawHour where
  date_str : String
  hour : Nat
  temperature : Option ℚ := none
  feels_like : Option ℚ := none
  humidity : Option ℚ := none
  dew_point : Option ℚ := none
  wind_speed : Option ℚ := none
  wind_gust : Option ℚ := none
  wind_direction : Option Int := none
  cloud_base_m : Option ℚ := none
  fog_probability : Option ℚ := none
  precipitation_probability : Option ℚ := none
  visibility : Option ℚ := none
  precipitation_mm : Option ℚ := none
  rain_mm : Option ℚ := none
  snow_mm : Option ℚ := none
  pressure : Option ℚ := none
  uv_index : Option ℚ := none
  weather_condition : Option String := none
  weather_description : Option String := none
deriving DecidableEq

/-- A provider forecast response: the value under the `hourly` key. -/
structure Forecast where
  hourly : List RawHour
deriving DecidableEq

/-- Standardized hourly weather data (analyzer.py, class HourlyWeather). -/
structure HourlyWeather where
  date_str : String
  hour : Nat
  temperature : ℚ
  feels_like : ℚ
  humidity : ℚ
  dew_point : ℚ
  wind_speed : ℚ
  wind_gust : ℚ
  wind_direction : Int
  cloud_base_m : ℚ
  fog_probability : ℚ
  precipitation_probability : ℚ
  visibility : ℚ
  precipitation_mm : ℚ
  snow_mm : ℚ
  pressure : ℚ
  uv_index : ℚ
  weather_condition : String
  weather_description : String
  source : String
deriving DecidableEq

/-- Information about a single flyable window
(analyzer.py, class FlyableWindowInfo). -/
structure FlyableWindowInfo where
  date : String
  start_hour : Nat
  end_hour : Nat
  duration_hours : Nat
  source : String := "both"
  avg_temp : ℚ := 0
  min_temp : ℚ := 0
  max_temp : ℚ := 0
  avg_wind_speed : ℚ := 0
  max_wind_speed : ℚ := 0
  avg_humidity : ℚ := 0
  max_precipitation_prob : ℚ := 0
  avg_cloud_base_m : ℚ := 0
  max_fog_probability : ℚ := 0
deriving DecidableEq

/-- Complete analysis result (analyzer.py, class FullForecastAnalysis). -/
structure FullForecastAnalysis where
  location_id : Int
  location_name : String
  analysis_time : Timestamp
  forecast_start : Timestamp
  forecast_end : Timestamp
  total_hours_analyzed : Nat := 0
  flyable_windows : List FlyableWindowInfo := []
  total_flyable_hours : Nat := 0
  has_flyable_conditions : Bool := false
  rejection_reasons : List String := []
  openweather_available : Bool := false
  visualcrossing_available : Bool := false
  openweather_hours : Nat := 0
  visualcrossing_hours : Nat := 0
  current_temp : Option ℚ := none
  current_wind_speed : Option ℚ := none
  current_wind_direction : Option Int := none
  current_humidity : Option ℚ := none
  current_cloud_base_m : Option ℚ := none
  current_fog_probability : Option ℚ := none
deriving DecidableEq

/-- A previously-notified flyable window as stored by the persistence
layer (db.py, `_row_to_flyable_window`), restricted to the fields the
window diff engine reads. -/
structure NotifiedWindow where
  date : String
  start_hour : Nat
  end_hour : Nat
  source : String := "both"
  notified : Bool := true
  cancelled : Bool := false
deriving DecidableEq

/-- Embeds one iteration of the parsing loop in `_parse_all_hourly_data`
(analyzer.py lines 294-343): every missing optional numeric field is
replaced by the `dict.get` default of the source. -/
def parse_hour (source : String) (hour_data : RawHour) : HourlyWeather :=
  { date_str := hour_data.date_str
    hour := hour_data.hour
    temperature := hour_data.temperature.getD 0
    feels_like := hour_data.feels_like.getD 0
    humidity := hour_data.humidity.getD 0
    dew_point := hour_data.dew_point.getD 0
    wind_speed := hour_data.wind_speed.getD 0
    wind_gust := hour_data.wind_gust.getD 0
    wind_direction := hour_data.wind_direction.getD 0
    cloud_base_m := hour_data.cloud_base_m.getD 0
    fog_probability := hour_data.fog_probability.getD 0
    precipitation_probability := hour_data.precipitation_probability.getD 0
    visibility := hour_data.visibility.getD 10
    precipitation_mm := hour_data.precipitation_mm.getD (hour_data.rain_mm.getD 0)
    snow_mm := hour_data.snow_mm.getD 0
    pressure := hour_data.pressure.getD 1013
    uv_index := hour_data.uv_index.getD 0
    weather_condition := hour_data.weather_condition.getD ""
    weather_description := hour_data.weather_description.getD ""
    source := source }

/-- `_parse_all_hourly_data` (analyzer.py lines 286-345). -/
def parse_all_hourly_data (data : Forecast) (source : String) : List HourlyWeather :=
  data.hourly.map (parse_hour source)

/-- The circular distance of `_check_wind_direction` (analyzer.py lines
437-439): `diff = abs(actual - allowed_dir); if diff > 180: diff = 360 - diff`. -/
def circular_diff (actual allowed_dir : Int) : Int :=
  let diff := |actual - allowed_dir|
  if diff > 180 then 360 - diff else diff

/-- `_check_wind_direction` (analyzer.py lines 429-442). -/
def check_wind_direction (actual : Int) (allowed : List Int) (tolerance : Int) : Bool :=
  allowed.any fun allowed_dir => decide (circular_diff actual allowed_dir ≤ tolerance)

/-- `_check_hour_flyable` (analyzer.py lines 389-427). -/
def check_hour_flyable (weather : HourlyWeather) (location : Location) : Bool :=
  if weather.temperature < location.temp_min then false
  else if weather.humidity > location.humidity_max then false
  else if weather.wind_speed > location.wind_speed_max then false
  else if weather.wind_gust > location.wind_speed_max * 1.5 then false
  else if location.wind_directions ≠ [] ∧
      check_wind_direction weather.wind_direction location.wind_directions
        location.wind_direction_tolerance = false then false
  else if weather.temperature - weather.dew_point < location.dew_point_spread_min then false
  else if weather.precipitation_probability > location.precipitation_probability_max then false
  else true

/-- Dictionary lookup `{h.hour: h for h in day_data}.get(hour)` of
`_find_flyable_hours_for_day`: the comprehension keeps the last record
per hour, so look from the back. -/
def by_hour_get (day_data : List HourlyWeather) (hour : Nat) : Option HourlyWeather :=
  day_data.reverse.find? fun h => h.hour == hour

/-- `_check_hour_flyable(ow_hour, location) if ow_hour else False`
(analyzer.py lines 377-378). -/
def hour_flyable_from (day_data : List HourlyWeather) (location : Location) (hour : Nat) : Bool :=
  match by_hour_get day_data hour with
  | some h => check_hour_flyable h location
  | none => false

/-- `_find_flyable_hours_for_day` (analyzer.py lines 354-387): classify
each hour of the configured daily window into both / ow-only / vc-only. -/
def find_flyable_hours_for_day (location : Location)
    (ow_day_data vc_day_data : List HourlyWeather) :
    List Nat × List Nat × List Nat :=
  let hour_range := List.range' location.time_window_start
    (location.time_window_end + 1 - location.time_window_start)
  (hour_range.filter fun h =>
      hour_flyable_from ow_day_data location h && hour_flyable_from vc_day_data location h,
   hour_range.filter fun h =>
      hour_flyable_from ow_day_data location h && !(hour_flyable_from vc_day_data location h),
   hour_range.filter fun h =>
      !(hour_flyable_from ow_day_data location h) && hour_flyable_from vc_day_data location h)

/-- Nonempty-list maximum, embedding Python's `max(xs)` on a list known
nonempty (0 on the unreachable empty case). -/
def listMaxD (l : List ℚ) : ℚ :=
  match l with
  | [] => 0
  | a :: t => t.foldl max a

/-- Nonempty-list minimum, embedding Python's `min(xs)`. -/
def listMinD (l : List ℚ) : ℚ :=
  match l with
  | [] => 0
  | a :: t => t.foldl min a

/-- `_create_window_info` (analyzer.py lines 500-538). `hours` is always
nonempty at the call sites, so `hours[0]` / `hours[-1]` are embedded with
defaulted head/last. -/
def create_window_info (date_str : String) (hours : List Nat)
    (all_hourly_data : List HourlyWeather) (source : String) : FlyableWindowInfo :=
  let window_data := all_hourly_data.filter fun h =>
    h.date_str == date_str && hours.contains h.hour
  let window : FlyableWindowInfo :=
    { date := date_str
      start_hour := hours.headD 0
      end_hour := hours.getLastD 0
      duration_hours := hours.length
      source := source }
  if window_data = [] then window
  else
    let temps := window_data.map fun h => h.temperature
    let winds := window_data.map fun h => h.wind_speed
    let humidities := window_data.map fun h => h.humidity
    let precip_probs := window_data.map fun h => h.precipitation_probability
    let cloud_bases := window_data.map fun h => h.cloud_base_m
    let fog_probs := window_data.map fun h => h.fog_probability
    { window with
      avg_temp := temps.sum / temps.length
      min_temp := listMinD temps
      max_temp := listMaxD temps
      avg_wind_speed := winds.sum / winds.length
      max_wind_speed := listMaxD winds
      avg_humidity := humidities.sum / humidities.length
      max_precipitation_prob := listMaxD precip_probs
      avg_cloud_base_m := cloud_bases.sum / cloud_bases.length
      max_fog_probability := if fog_probs = [] then 0 else listMaxD fog_probs }

/-- The scanning loop of `_find_continuous_windows` (analyzer.py lines
480-497): walk the remaining sorted hours keeping the current consecutive
sequence and the windows accumulated so far. -/
def fcwGo (date_str : String) (required : Nat) (all_hourly_data : List HourlyWeather)
    (source : String) :
    List Nat → List Nat → List FlyableWindowInfo → List FlyableWindowInfo
  | [], current_sequence, acc =>
    if required ≤ current_sequence.length then
      acc ++ [create_window_info date_str current_sequence all_hourly_data source]
    else acc
  | x :: rest, current_sequence, acc =>
    if x = current_sequence.getLastD 0 + 1 then
      fcwGo date_str required all_hourly_data source rest (current_sequence ++ [x]) acc
    else
      fcwGo date_str required all_hourly_data source rest [x]
        (if required ≤ current_sequence.length then
          acc ++ [create_window_info date_str current_sequence all_hourly_data source]
        else acc)

/-- `_find_continuous_windows` (analyzer.py lines 465-498).  `none`
embeds the `IndexError` that `sorted_hours[0]` raises on an empty list
(reachable only when `required` is 0 and `flyable_hours` is empty). -/
def find_continuous_windows (date_str : String) (flyable_hours : List Nat)
    (required_hours : Nat) (all_hourly_data : List HourlyWeather) (source : String) :
    Option (List FlyableWindowInfo) :=
  if flyable_hours.length < required_hours then some []
  else
    match sortLe (fun a b => decide (a ≤ b)) flyable_hours with
    | [] => none
    | h0 :: rest => some (fcwGo date_str required_hours all_hourly_data source rest [h0] [])

/-- `window_hours <= other` on Python sets embedded as lists. -/
def subsetB (a b : List Nat) : Bool := a.all fun x => b.contains x

/-- `bool(window_hours & other)` on Python sets embedded as lists. -/
def intersectsB (a b : List Nat) : Bool := a.any fun x => b.contains x

/-- `_window_source` (analyzer.py lines 444-463). -/
def window_source (window_hours hours_both hours_ow_only hours_vc_only : List Nat) : String :=
  if window_hours = [] then "both"
  else if subsetB window_hours hours_both then "both"
  else if subsetB window_hours (hours_both ++ hours_ow_only) &&
      !(intersectsB window_hours hours_vc_only) then "openweather"
  else if subsetB window_hours (hours_both ++ hours_vc_only) &&
      !(intersectsB window_hours hours_ow_only) then "visualcrossing"
  else "mixed"

/-- `set(range(w.start_hour, w.end_hour + 1))` (analyzer.py line 258). -/
def window_hours_set (w : FlyableWindowInfo) : List Nat :=
  List.range' w.start_hour (w.end_hour + 1 - w.start_hour)

/-- The per-date loop body of `analyze_full_forecast` (analyzer.py lines
238-262): find per-source flyable hours, take the sorted union, cut it
into continuous windows, and relabel each window's source. -/
def analyze_day (location : Location) (date_str : String)
    (ow_day_data vc_day_data : List HourlyWeather) :
    Option (List FlyableWindowInfo × Nat) :=
  let hbov := find_flyable_hours_for_day location ow_day_data vc_day_data
  let hours_both := hbov.1
  let hours_ow_only := hbov.2.1
  let hours_vc_only := hbov.2.2
  let hours_union := sortLe (fun a b => decide (a ≤ b))
    (hours_both ++ hours_ow_only ++ hours_vc_only).dedup
  let combined_hourly := ow_day_data ++ vc_day_data
  match find_continuous_windows date_str hours_union
      location.required_conditions_duration_hours combined_hourly "both" with
  | none => none
  | some raw_windows =>
    some (raw_windows.map (fun w =>
      { w with source := (window_source (window_hours_set w)
          hours_both hours_ow_only hours_vc_only) }),
      hours_union.length)

/-- The `for date_str in all_dates` loop of `analyze_full_forecast`
(analyzer.py lines 238-262), accumulating all windows and the total
flyable-hour count. -/
def analyze_days (location : Location) (ow_hourly vc_hourly : List HourlyWeather) :
    List String → Option (List FlyableWindowInfo × Nat)
  | [] => some ([], 0)
  | date_str :: rest =>
    match analyze_day location date_str
        (ow_hourly.filter fun h => h.date_str == date_str)
        (vc_hourly.filter fun h => h.date_str == date_str) with
    | none => none
    | some (ws, n) =>
      match analyze_days location ow_hourly vc_hourly rest with
      | none => none
      | some (ws', n') => some (ws ++ ws', n + n')

/-- `_set_current_conditions` (analyzer.py lines 540-572). -/
def set_current_conditions (result : FullForecastAnalysis)
    (ow_hourly vc_hourly : List HourlyWeather) (now : Timestamp) : FullForecastAnalysis :=
  match ow_hourly.find? (fun h => h.date_str == now.date_str && h.hour == now.hour) with
  | some hourly =>
    { result with
      current_temp := some hourly.temperature
      current_wind_speed := some hourly.wind_speed
      current_wind_direction := some hourly.wind_direction
      current_humidity := some hourly.humidity
      current_cloud_base_m := some hourly.cloud_base_m
      current_fog_probability := some hourly.fog_probability }
  | none =>
    match vc_hourly.find? (fun h => h.date_str == now.date_str && h.hour == now.hour) with
    | some hourly =>
      { result with
        current_temp := some hourly.temperature
        current_wind_speed := some hourly.wind_speed
        current_wind_direction := some hourly.wind_direction
        current_humidity := some hourly.humidity
        current_cloud_base_m := some hourly.cloud_base_m
        current_fog_probability := some hourly.fog_probability }
    | none => result

/-- Sort key `(w.date, w.start_hour)` of analyzer.py line 265. -/
def windowLe (w1 w2 : FlyableWindowInfo) : Bool :=
  strLt w1.date w2.date || (w1.date == w2.date && decide (w1.start_hour ≤ w2.start_hour))

/-- `analyze_full_forecast` (analyzer.py lines 169-284).  The wall clock
`datetime.now(self.timezone)` is the explicit `now` argument; `none`
embeds an uncaught exception (reachable only through
`_find_continuous_windows`). -/
def analyze_full_forecast (location : Location)
    (openweather_data visualcrossing_data : Option Forecast) (now : Timestamp) :
    Option FullForecastAnalysis :=
  let result0 : FullForecastAnalysis :=
    { location_id := location.id
      location_name := location.name
      analysis_time := now
      forecast_start := now
      forecast_end := now
      openweather_available := openweather_data.isSome
      visualcrossing_available := visualcrossing_data.isSome }
  match openweather_data, visualcrossing_data with
  | none, none =>
    some { result0 with rejection_reasons :=
      ["❌ Нет данных от OpenWeather", "❌ Нет данных от VisualCrossing"] }
  | none, some _ =>
    some { result0 with rejection_reasons := ["❌ Нет данных от OpenWeather"] }
  | some _, none =>
    some { result0 with rejection_reasons := ["❌ Нет данных от VisualCrossing"] }
  | some ow_data, some vc_data =>
    let ow_hourly := parse_all_hourly_data ow_data "openweather"
    let vc_hourly := parse_all_hourly_data vc_data "visualcrossing"
    let result1 := { result0 with
      openweather_hours := ow_hourly.length
      visualcrossing_hours := vc_hourly.length }
    if ow_hourly = [] ∨ vc_hourly = [] then
      some { result1 with rejection_reasons := ["❌ Нет почасовых данных в прогнозах"] }
    else
      let ow_dates := (ow_hourly.map fun h => h.date_str).dedup
      let vc_dates := (vc_hourly.map fun h => h.date_str).dedup
      let all_dates := sortLe strLe (ow_dates.filter fun d => vc_dates.contains d)
      if all_dates = [] then
        some { result1 with rejection_reasons := ["❌ Нет совпадающих дат в прогнозах"] }
      else
        let result2 := { result1 with
          forecast_start := { date_str := all_dates.headD "", hour := 0 }
          forecast_end := { date_str := all_dates.getLastD "", hour := 0 } }
        match analyze_days location ow_hourly vc_hourly all_dates with
        | none => none
        | some (all_flyable_windows, total_hours) =>
          let sorted_windows := sortLe windowLe all_flyable_windows
          let result3 := { result2 with
            flyable_windows := sorted_windows
            total_flyable_hours := total_hours
            total_hours_analyzed := (all_dates.map fun d =>
              (ow_hourly.filter fun h => h.date_str == d).length).sum
            has_flyable_conditions := !(sorted_windows.isEmpty)
            rejection_reasons :=
              if sorted_windows = [] then
                ["❌ Не найдено непрерывных окон минимум " ++
                  toString location.required_conditions_duration_hours ++ " ч."] ++
                (if 0 < total_hours then
                  ["ℹ️ Найдено " ++ toString total_hours ++ " лётных часов, но не подряд"]
                else [])
              else [] }
          some (set_current_conditions result3 ow_hourly vc_hourly now)

/-- The key loop of `_handle_forecast_changes` (notifier.py lines
373-375): build the set of keys `(date, start_hour, end_hour, source)` of
the previously-notified windows. -/
def get_notified_keys (notified_windows : List NotifiedWindow) :
    List (String × Nat × Nat × String) :=
  notified_windows.map fun w => (w.date, w.start_hour, w.end_hour, w.source)

/-- The new-window loop of `_handle_forecast_changes` (notifier.py lines
377-381): keep each current window whose key is not among the
previously-notified keys. -/
def find_new_windows (current_windows : List FlyableWindowInfo)
    (notified_keys : List (String × Nat × Nat × String)) : List FlyableWindowInfo :=
  current_windows.filter fun w =>
    !(notified_keys.contains (w.date, w.start_hour, w.end_hour, w.source))

/-- The predicate `still_exists` of `cancel_windows_not_in_forecast`
(db.py lines 836-842). -/
def still_exists (current_windows : List FlyableWindowInfo) (window : NotifiedWindow) : Bool :=
  current_windows.any fun cw =>
    cw.date == window.date && cw.start_hour == window.start_hour &&
    cw.end_hour == window.end_hour && cw.source == window.source

/-- `cancel_windows_not_in_forecast` (db.py lines 813-856), restricted to
the pure decision it makes: the previously-notified windows whose key no
longer occurs in the current forecast. -/
def cancel_windows_not_in_forecast (current_windows : List FlyableWindowInfo)
    (notified_windows : List NotifiedWindow) : List NotifiedWindow :=
  notified_windows.filter fun window => !(still_exists current_windows window)

/-- The window diff engine: the pure decision core of
`_handle_forecast_changes` (notifier.py lines 343-400), returning
`(new_windows, cancelled_windows)`. -/
def handle_forecast_changes_diff (current_windows : List FlyableWindowInfo)
    (notified_windows : List NotifiedWindow) :
    List FlyableWindowInfo × List NotifiedWindow :=
  (find_new_windows current_windows (get_notified_keys notified_windows),
   cancel_windows_not_in_forecast current_windows notified_windows)

/-- The persistence layer's materialization of a freshly notified window
(notifier.py lines 388-397 with db.py `mark_window_notified`): same key
fields, `notified` set, `cancelled` clear. -/
def mark_notified (w : FlyableWindowInfo) : NotifiedWindow :=
  { date := w.date
    start_hour := w.start_hour
    end_hour := w.end_hour
    source := w.source
    notified := true
    cancelled := false }

/-- The structural identity of a computed window for diffing purposes:
the tuple `(date, start_hour, end_hour, source)` (notifier.py line 379). -/
def window_key (w : FlyableWindowInfo) : String × Nat × Nat × String :=
  (w.date, w.start_hour, w.end_hour, w.source)

/-- The structural identity of a previously-notified window
(notifier.py line 375). -/
def notified_key (w : NotifiedWindow) : String × Nat × Nat × String :=
  (w.date, w.start_hour, w.end_hour, w.source)

/-- A raw hourly entry whose only interesting value is the temperature;
all other thresholds are kept comfortably satisfied. -/
def mkRawHour (date_str : String) (hour : Nat) (temp : ℚ) : RawHour :=
  { date_str := date_str
    hour := hour
    temperature := some temp
    feels_like := some temp
    humidity := some 50
    dew_point := some 0
    wind_speed := some 3
    wind_gust := some 3
    wind_direction := some 0
    cloud_base_m := some 1000
    fog_probability := some 0
    precipitation_probability := some 0
    visibility := some 10
    pressure := some 1013 }

/-- The rule set of spec scenario example 1: time window 8-18, minimum
temperature 5, maximum wind 8, required duration 4 hours. -/
def locScenario : Location :=
  { id := 1
    name := "Scenario"
    time_window_start := 8
    time_window_end := 18
    temp_min := 5
    humidity_max := 85
    wind_speed_max := 8
    wind_directions := []
    wind_direction_tolerance := 45
    dew_point_spread_min := 2
    required_conditions_duration_hours := 4
    precipitation_probability_max := 20 }

/-- Provider A (OpenWeather) forecast of scenario example 1: hours 9-14
flyable (temperature 10), all other hours of the window too cold. -/
def owScenario : Forecast :=
  { hourly := (List.range' 8 11).map fun h =>
      mkRawHour "2024-05-01" h (if 9 ≤ h ∧ h ≤ 14 then 10 else 0) }

/-- Provider B (VisualCrossing) forecast of scenario example 1: hours
10-13 flyable, hours 9 and 14 one degree below the 5 degree threshold. -/
def vcScenario : Forecast :=
  { hourly := (List.range' 8 11).map fun h =>
      mkRawHour "2024-05-01" h
        (if 10 ≤ h ∧ h ≤ 13 then 10 else if h = 9 ∨ h = 14 then 4 else 0) }

/-- A clock reading outside the forecast horizon of the scenario. -/
def nowScenario : Timestamp := { date_str := "2024-04-30", hour := 12 }

/-- A raw hourly entry with every optional field missing. -/
def emptyRawHour : RawHour := { date_str := "2024-01-01", hour := 0 }

/-- A raw hourly entry whose only present optional field is `rain_mm`,
exercising the `precipitation_mm` fallback. -/
def rainRawHour : RawHour := { date_str := "2024-01-01", hour := 1, rain_mm := some 2 }

/-- A one-entry forecast used to exercise the missing-provider path. -/
def fcWitness : Forecast := { hourly := [mkRawHour "2024-01-01" 8 10] }

/-- The invariant carried by every window the continuous-window scan
produces: hour bounds satisfy `P`, start and end are ordered, the
duration is the inclusive hour count, and the run is at least `required`
long. -/
def GoodWin (P : Nat → Prop) (required : Nat) (w : FlyableWindowInfo) : Prop :=
  P w.start_hour ∧ P w.end_hour ∧ w.start_hour ≤ w.end_hour ∧
  w.duration_hours = w.end_hour - w.start_hour + 1 ∧
  required ≤ w.duration_hours

/-- A throwaway analysis record, used only as a `getD` default. -/
def dummyAnalysis : FullForecastAnalysis :=
  { location_id := 0
    location_name := ""
    analysis_time := nowScenario
    forecast_start := nowScenario
    forecast_end := nowScenario }

/-- A throwaway window record, used only as a `headD` default. -/
def dummyWindow : FlyableWindowInfo :=
  { date := "", start_hour := 0, end_hour := 0, duration_hours := 0 }

/-- The analysis result of scenario example 1. -/
def rScenario : FullForecastAnalysis :=
  (analyze_full_forecast locScenario (some owScenario) (some vcScenario) nowScenario).getD
    dummyAnalysis

/-- The single window of scenario example 1. -/
def wScenario : FlyableWindowInfo := rScenario.flyable_windows.headD dummyWindow

theorem mem_insertLe {α : Type} (le : α → α → Bool) (a x : α) (l : List α) :
    x ∈ insertLe le a l ↔ x = a ∨ x ∈ l := by
  induction l with
  | nil => simp [insertLe]
  | cons b t ih =>
    by_cases h : le a b = true
    · simp [insertLe, h]
      try tauto
    · simp [insertLe, h, ih]
      try tauto

theorem mem_sortLe {α : Type} (le : α → α → Bool) (x : α) (l : List α) :
    x ∈ sortLe le l ↔ x ∈ l := by
  induction l with
  | nil => simp [sortLe]
  | cons a t ih => simp [sortLe, mem_insertLe, ih]

theorem length_insertLe {α : Type} (le : α → α → Bool) (a : α) (l : List α) :
    (insertLe le a l).length = l.length + 1 := by
  induction l with
  | nil => rfl
  | cons b t ih =>
    by_cases h : le a b = true
    · simp [insertLe, h]
    · simp [insertLe, h, ih]

theorem length_sortLe {α : Type} (le : α → α → Bool) (l : List α) :
    (sortLe le l).length = l.length := by
  induction l with
  | nil => rfl
  | cons a t ih => simp [sortLe, length_insertLe, ih]

theorem check_wind_direction_iff (actual : Int) (allowed : List Int) (tolerance : Int) :
    check_wind_direction actual allowed tolerance = true ↔
      ∃ d ∈ allowed, circular_diff actual d ≤ tolerance := by
  simp [check_wind_direction, List.any_eq_true]

/-- C3: the hour evaluator accepts a record exactly when every configured
threshold holds: temperature at least `temp_min`, humidity at most
`humidity_max`, wind speed at most `wind_speed_max`, gust at most
`1.5 * wind_speed_max`, wind direction within tolerance of some allowed
direction (circular distance `d = abs(a-b)` folded to `360-d` when
`d > 180`) whenever the allowed set is non-empty, dew-point spread at
least `dew_point_spread_min`, and precipitation probability at most
`precipitation_probability_max`; any single failing check yields false. -/
theorem check_hour_flyable_iff (weather : HourlyWeather) (location : Location) :
    check_hour_flyable weather location = true ↔
      (location.temp_min ≤ weather.temperature ∧
       weather.humidity ≤ location.humidity_max ∧
       weather.wind_speed ≤ location.wind_speed_max ∧
       weather.wind_gust ≤ 1.5 * location.wind_speed_max ∧
       (location.wind_directions ≠ [] →
         ∃ d ∈ location.wind_directions,
           circular_diff weather.wind_direction d ≤ location.wind_direction_tolerance) ∧
       location.dew_point_spread_min ≤ weather.temperature - weather.dew_point ∧
       weather.precipitation_probability ≤ location.precipitation_probability_max) := by
  simp only [check_hour_flyable]
  split_ifs with h1 h2 h3 h4 h5 h6 h7
  · simp only [Bool.false_eq_true, false_iff]
    exact fun hc => absurd hc.1 (not_le.mpr h1)
  · simp only [Bool.false_eq_true, false_iff]
    exact fun hc => absurd hc.2.1 (not_le.mpr h2)
  · simp only [Bool.false_eq_true, false_iff]
    exact fun hc => absurd hc.2.2.1 (not_le.mpr h3)
  · simp only [Bool.false_eq_true, false_iff]
    exact fun hc => absurd hc.2.2.2.1 (not_le.mpr (by rw [mul_comm]; exact h4))
  · simp only [Bool.false_eq_true, false_iff]
    intro hc
    have hex := hc.2.2.2.2.1 h5.1
    rw [← check_wind_direction_iff] at hex
    rw [h5.2] at hex
    exact absurd hex (by simp)
  · simp only [Bool.false_eq_true, false_iff]
    exact fun hc => absurd hc.2.2.2.2.2.1 (not_le.mpr h6)
  · simp only [Bool.false_eq_true, false_iff]
    exact fun hc => absurd hc.2.2.2.2.2.2 (not_le.mpr h7)
  · simp only [true_iff]
    refine ⟨not_lt.mp h1, not_lt.mp h2, not_lt.mp h3,
      (by rw [mul_comm]; exact not_lt.mp h4), ?_, not_lt.mp h6, not_lt.mp h7⟩
    intro hne
    rw [← check_wind_direction_iff]
    by_cases hch : check_wind_direction weather.wind_direction location.wind_directions
        location.wind_direction_tolerance = true
    · exact hch
    · exact absurd ⟨hne, Bool.eq_false_iff.mpr hch⟩ h5

theorem get_notified_keys_eq (notified : List NotifiedWindow) :
    get_notified_keys notified = notified.map notified_key := rfl

theorem contains_iff {α : Type} [BEq α] [LawfulBEq α] (l : List α) (a : α) :
    l.contains a = true ↔ a ∈ l := by
  simp [List.contains_eq_any_beq, List.any_eq_true]

theorem still_exists_iff (current : List FlyableWindowInfo) (window : NotifiedWindow) :
    still_exists current window = true ↔ notified_key window ∈ current.map window_key := by
  simp only [still_exists, List.any_eq_true, Bool.and_eq_true, beq_iff_eq, List.mem_map,
    window_key, notified_key, Prod.mk.injEq]
  constructor
  · rintro ⟨cw, hcw, ⟨⟨h1, h2⟩, h3⟩, h4⟩
    exact ⟨cw, hcw, h1, h2, h3, h4⟩
  · rintro ⟨cw, hcw, h1, h2, h3, h4⟩
    exact ⟨cw, hcw, ⟨⟨h1, h2⟩, h3⟩, h4⟩

theorem still_exists_of_key (current : List FlyableWindowInfo) (n : NotifiedWindow)
    (w : FlyableWindowInfo) (hw : w ∈ current) (hk : window_key w = notified_key n) :
    still_exists current n = true := by
  rw [still_exists_iff]
  exact hk ▸ List.mem_map_of_mem window_key hw

/-- C2: the window diff engine returns as `new_windows` exactly the
current windows whose key `(date, start_hour, end_hour, source)` is
absent from the keys of the previously-notified windows, and as
`cancelled_windows` exactly the previously-notified windows whose key is
absent from the keys of the current windows. -/
theorem window_diff_spec (current : List FlyableWindowInfo) (notified : List NotifiedWindow) :
    (∀ w, w ∈ (handle_forecast_changes_diff current notified).1 ↔
      w ∈ current ∧ window_key w ∉ notified.map notified_key) ∧
    (∀ n, n ∈ (handle_forecast_changes_diff current notified).2 ↔
      n ∈ notified ∧ notified_key n ∉ current.map window_key) := by
  constructor
  · intro w
    simp [handle_forecast_changes_diff, find_new_windows, get_notified_keys_eq,
      List.mem_filter, window_key]
  · intro n
    constructor
    · intro hmem
      obtain ⟨hn, hp⟩ := List.mem_filter.mp hmem
      refine ⟨hn, ?_⟩
      intro hk
      rw [← still_exists_iff] at hk
      simp [hk] at hp
    · rintro ⟨hn, hk⟩
      refine List.mem_filter.mpr ⟨hn, ?_⟩
      cases hse : still_exists current n
      · simp
      · exact absurd ((still_exists_iff current n).mp hse) hk

/-- C4: the window diff engine is idempotent under notification: after
folding the first call's new windows into the notified set (marked
notified) and dropping the first call's cancelled entries, a second diff
against the same current windows reports nothing new and nothing
cancelled. -/
theorem window_diff_idempotent (current : List FlyableWindowInfo)
    (notified : List NotifiedWindow) :
    handle_forecast_changes_diff current
      ((notified.filter fun window => still_exists current window) ++
        (handle_forecast_changes_diff current notified).1.map mark_notified) = ([], []) := by
  refine Prod.ext ?_ ?_
  · show find_new_windows current (get_notified_keys
      ((notified.filter fun window => still_exists current window) ++
        (handle_forecast_changes_diff current notified).1.map mark_notified)) = []
    rw [List.eq_nil_iff_forall_not_mem]
    intro w hw
    rw [find_new_windows, List.mem_filter] at hw
    obtain ⟨hwc, hp⟩ := hw
    rw [Bool.not_eq_true'] at hp
    have hkmem : window_key w ∈ get_notified_keys
        ((notified.filter fun window => still_exists current window) ++
          (handle_forecast_changes_diff current notified).1.map mark_notified) := by
      rw [get_notified_keys_eq, List.map_append]
      by_cases hks : window_key w ∈ notified.map notified_key
      · obtain ⟨nrec, hnrec, hkeq⟩ := List.mem_map.mp hks
        apply List.mem_append_left
        refine List.mem_map.mpr ⟨nrec, ?_, hkeq⟩
        exact List.mem_filter.mpr ⟨hnrec, still_exists_of_key current nrec w hwc hkeq.symm⟩
      · apply List.mem_append_right
        have hwin : w ∈ (handle_forecast_changes_diff current notified).1 := by
          refine List.mem_filter.mpr ⟨hwc, ?_⟩
          rw [Bool.not_eq_true']
          rw [Bool.eq_false_iff]
          intro hcon
          apply hks
          rw [contains_iff] at hcon
          rw [get_notified_keys_eq] at hcon
          exact hcon
        refine List.mem_map.mpr ⟨mark_notified w, List.mem_map_of_mem mark_notified hwin, rfl⟩
    have hc := (contains_iff (get_notified_keys
        ((notified.filter fun window => still_exists current window) ++
          (handle_forecast_changes_diff current notified).1.map mark_notified))
      (window_key w)).mpr hkmem
    rw [window_key] at hc
    rw [hp] at hc
    cases hc
  · show cancel_windows_not_in_forecast current
      ((notified.filter fun window => still_exists current window) ++
        (handle_forecast_changes_diff current notified).1.map mark_notified) = []
    rw [List.eq_nil_iff_forall_not_mem]
    intro n hn
    rw [cancel_windows_not_in_forecast, List.mem_filter] at hn
    obtain ⟨hmem, hp⟩ := hn
    rw [Bool.not_eq_true'] at hp
    rcases List.mem_append.mp hmem with hs | hnew
    · obtain ⟨_, hse⟩ := List.mem_filter.mp hs
      rw [hp] at hse
      cases hse
    · obtain ⟨w, hwnews, rfl⟩ := List.mem_map.mp hnew
      have hwc : w ∈ current := (List.mem_filter.mp hwnews).1
      have hse := still_exists_of_key current (mark_notified w) w hwc rfl
      rw [hp] at hse
      cases hse

/-- C7 counterexample: an entry missing the optional `visibility` field
is parsed with `visibility = 10` (and `pressure = 1013`), not 0, so not
every missing optional numeric field defaults to 0. -/
theorem parse_hour_visibility_cex :
    (parse_hour "openweather" emptyRawHour).visibility ≠ 0 ∧
    (parse_hour "openweather" emptyRawHour).visibility = 10 ∧
    (parse_hour "openweather" emptyRawHour).pressure = 1013 := by
  refine ⟨?_, rfl, rfl⟩
  decide

/-- C7 (amended): field by field, every optional numeric field missing
from a raw provider hourly entry is defaulted to 0 in the canonical
record, except `visibility` (defaulted to 10), `pressure` (defaulted to
1013), and `precipitation_mm` (which first falls back to the entry's
`rain_mm` and only then to 0).  Each conjunct assumes only the absence
of the field it is about. -/
theorem parse_hour_defaults (hour_data : RawHour) (source : String) :
    (hour_data.temperature = none → (parse_hour source hour_data).temperature = 0) ∧
    (hour_data.feels_like = none → (parse_hour source hour_data).feels_like = 0) ∧
    (hour_data.humidity = none → (parse_hour source hour_data).humidity = 0) ∧
    (hour_data.dew_point = none → (parse_hour source hour_data).dew_point = 0) ∧
    (hour_data.wind_speed = none → (parse_hour source hour_data).wind_speed = 0) ∧
    (hour_data.wind_gust = none → (parse_hour source hour_data).wind_gust = 0) ∧
    (hour_data.wind_direction = none → (parse_hour source hour_data).wind_direction = 0) ∧
    (hour_data.cloud_base_m = none → (parse_hour source hour_data).cloud_base_m = 0) ∧
    (hour_data.fog_probability = none → (parse_hour source hour_data).fog_probability = 0) ∧
    (hour_data.precipitation_probability = none →
      (parse_hour source hour_data).precipitation_probability = 0) ∧
    (hour_data.snow_mm = none → (parse_hour source hour_data).snow_mm = 0) ∧
    (hour_data.uv_index = none → (parse_hour source hour_data).uv_index = 0) ∧
    (hour_data.visibility = none → (parse_hour source hour_data).visibility = 10) ∧
    (hour_data.pressure = none → (parse_hour source hour_data).pressure = 1013) ∧
    (hour_data.precipitation_mm = none → hour_data.rain_mm = none →
      (parse_hour source hour_data).precipitation_mm = 0) ∧
    (∀ x, hour_data.precipitation_mm = none → hour_data.rain_mm = some x →
      (parse_hour source hour_data).precipitation_mm = x) := by
  refine ⟨?_, ?_, ?_, ?_, ?_, ?_, ?_, ?_, ?_, ?_, ?_, ?_, ?_, ?_, ?_, ?_⟩ <;>
    intros <;> simp_all [parse_hour]

theorem parse_hour_defaults_witness :
    (parse_hour "openweather" emptyRawHour).temperature = 0 ∧
    (parse_hour "openweather" emptyRawHour).feels_like = 0 ∧
    (parse_hour "openweather" emptyRawHour).humidity = 0 ∧
    (parse_hour "openweather" emptyRawHour).dew_point = 0 ∧
    (parse_hour "openweather" emptyRawHour).wind_speed = 0 ∧
    (parse_hour "openweather" emptyRawHour).wind_gust = 0 ∧
    (parse_hour "openweather" emptyRawHour).wind_direction = 0 ∧
    (parse_hour "openweather" emptyRawHour).cloud_base_m = 0 ∧
    (parse_hour "openweather" emptyRawHour).fog_probability = 0 ∧
    (parse_hour "openweather" emptyRawHour).precipitation_probability = 0 ∧
    (parse_hour "openweather" emptyRawHour).snow_mm = 0 ∧
    (parse_hour "openweather" emptyRawHour).uv_index = 0 ∧
    (parse_hour "openweather" emptyRawHour).visibility = 10 ∧
    (parse_hour "openweather" emptyRawHour).pressure = 1013 ∧
    (parse_hour "openweather" emptyRawHour).precipitation_mm = 0 ∧
    (parse_hour "openweather" rainRawHour).precipitation_mm = 2 := by
  obtain ⟨t1, t2, t3, t4, t5, t6, t7, t8, t9, t10, t11, t12, t13, t14, t15, -⟩ :=
    parse_hour_defaults emptyRawHour "openweather"
  obtain ⟨-, -, -, -, -, -, -, -, -, -, -, -, -, -, -, u16⟩ :=
    parse_hour_defaults rainRawHour "openweather"
  exact ⟨t1 rfl, t2 rfl, t3 rfl, t4 rfl, t5 rfl, t6 rfl, t7 rfl, t8 rfl, t9 rfl, t10 rfl,
    t11 rfl, t12 rfl, t13 rfl, t14 rfl, t15 rfl rfl, u16 2 rfl rfl⟩

/-- C5: whenever at least one provider forecast is absent, the analyzer
returns normally with `has_flyable_conditions = false`, no windows, and a
rejection reason naming each missing provider. -/
theorem analyze_missing_provider (location : Location) (now : Timestamp)
    (openweather_data visualcrossing_data : Option Forecast)
    (h : openweather_data = none ∨ visualcrossing_data = none) :
    ∃ r, analyze_full_forecast location openweather_data visualcrossing_data now = some r ∧
      r.has_flyable_conditions = false ∧
      r.flyable_windows = [] ∧
      (openweather_data = none → "❌ Нет данных от OpenWeather" ∈ r.rejection_reasons) ∧
      (visualcrossing_data = none → "❌ Нет данных от VisualCrossing" ∈ r.rejection_reasons) := by
  cases openweather_data with
  | none =>
    cases visualcrossing_data with
    | none =>
      refine ⟨_, rfl, rfl, rfl, ?_, ?_⟩ <;> simp [analyze_full_forecast]
    | some vc =>
      refine ⟨_, rfl, rfl, rfl, ?_, ?_⟩ <;> simp [analyze_full_forecast]
  | some ow =>
    cases visualcrossing_data with
    | none =>
      refine ⟨_, rfl, rfl, rfl, ?_, ?_⟩ <;> simp [analyze_full_forecast]
    | some vc =>
      rcases h with h | h <;> cases h

theorem analyze_missing_provider_witness :
    ∃ r, analyze_full_forecast locScenario none (some fcWitness) nowScenario = some r ∧
      r.has_flyable_conditions = false ∧
      r.flyable_windows = [] ∧
      ((none : Option Forecast) = none → "❌ Нет данных от OpenWeather" ∈ r.rejection_reasons) ∧
      ((some fcWitness : Option Forecast) = none →
        "❌ Нет данных от VisualCrossing" ∈ r.rejection_reasons) :=
  analyze_missing_provider locScenario nowScenario none (some fcWitness) (Or.inl rfl)

/-- C10: with a required duration of at least 1 hour the continuous
window finder is total (the `sorted_hours[0]` access is unreachable), and
on an empty flyable-hour list it returns the empty window list. -/
theorem find_continuous_windows_total (date_str : String) (flyable_hours : List Nat)
    (required : Nat) (all_hourly_data : List HourlyWeather) (source : String)
    (h : 1 ≤ required) :
    (find_continuous_windows date_str flyable_hours required all_hourly_data source).isSome
      = true ∧
    find_continuous_windows date_str [] required all_hourly_data source = some [] := by
  constructor
  · unfold find_continuous_windows
    by_cases hl : flyable_hours.length < required
    · simp [hl]
    · cases hs : sortLe (fun a b => decide (a ≤ b)) flyable_hours with
      | nil =>
        exfalso
        have hlen := length_sortLe (fun a b => decide (a ≤ b)) flyable_hours
        rw [hs] at hlen
        simp only [List.length_nil] at hlen
        apply hl
        omega
      | cons h0 rest =>
        simp [hl, hs]
  · unfold find_continuous_windows
    have hlt : ([] : List Nat).length < required := by
      simp only [List.length_nil]
      omega
    rw [if_pos hlt]

theorem find_continuous_windows_total_witness :
    (find_continuous_windows "2024-01-01" [3] 1 [] "both").isSome = true ∧
    find_continuous_windows "2024-01-01" [] 1 [] "both" = some [] :=
  find_continuous_windows_total "2024-01-01" [3] 1 [] "both" (by decide)

/-- C1 counterexample: on the inputs of scenario example 1 the analysis
does not label the 09:00-14:00 window `mixed`. -/
theorem scenario1_source_cex :
    (analyze_full_forecast locScenario (some owScenario) (some vcScenario) nowScenario).map
      (fun r => r.flyable_windows.map fun w =>
        (w.date, w.start_hour, w.end_hour, w.duration_hours, w.source)) ≠
    some [("2024-05-01", 9, 14, 6, "mixed")] := by
  decide

/-- C1 (amended): on the inputs of scenario example 1 the analysis
returns exactly one window for the day, with start hour 9, end hour 14,
duration 6, a six-hour flyable union, and source label `openweather`
(the provider-A label, since provider A covers every hour of the window
and no hour is B-only). -/
theorem scenario1_analysis :
    (analyze_full_forecast locScenario (some owScenario) (some vcScenario) nowScenario).map
      (fun r => r.flyable_windows.map fun w =>
        (w.date, w.start_hour, w.end_hour, w.duration_hours, w.source)) =
      some [("2024-05-01", 9, 14, 6, "openweather")] ∧
    (analyze_full_forecast locScenario (some owScenario) (some vcScenario) nowScenario).map
      (fun r => r.total_flyable_hours) = some 6 := by
  constructor <;> decide

theorem mem_range'_bounds {m s n : Nat} (h : m ∈ List.range' s n) : s ≤ m ∧ m < s + n := by
  rw [List.mem_range'] at h
  obtain ⟨i, hi, rfl⟩ := h
  omega

theorem mem_range'_of_bounds {m s n : Nat} (h1 : s ≤ m) (h2 : m < s + n) :
    m ∈ List.range' s n := by
  rw [List.mem_range']
  exact ⟨m - s, by omega, by omega⟩

theorem range'_getLastD (a m d : Nat) : (List.range' a (m + 1)).getLastD d = a + m := by
  induction m generalizing a d with
  | zero => simp
  | succ k ih =>
    rw [List.range'_succ, List.getLastD_cons]
    rw [ih]
    omega

theorem create_window_info_fields (date_str : String) (hours : List Nat)
    (all_hourly_data : List HourlyWeather) (source : String) :
    (create_window_info date_str hours all_hourly_data source).start_hour = hours.headD 0 ∧
    (create_window_info date_str hours all_hourly_data source).end_hour = hours.getLastD 0 ∧
    (create_window_info date_str hours all_hourly_data source).duration_hours
      = hours.length := by
  simp only [create_window_info]
  split_ifs <;> exact ⟨rfl, rfl, rfl⟩

theorem create_window_range (date_str : String) (all_hourly_data : List HourlyWeather)
    (source : String) (a n : Nat) (hn : 1 ≤ n) :
    (create_window_info date_str (List.range' a n) all_hourly_data source).start_hour = a ∧
    (create_window_info date_str (List.range' a n) all_hourly_data source).end_hour
      = a + n - 1 ∧
    (create_window_info date_str (List.range' a n) all_hourly_data source).duration_hours
      = n := by
  obtain ⟨m, rfl⟩ : ∃ m, n = m + 1 := ⟨n - 1, by omega⟩
  have hhead : (List.range' a (m + 1)).headD 0 = a := by
    rw [List.range'_succ]
    rfl
  have hlast : (List.range' a (m + 1)).getLastD 0 = a + m := range'_getLastD a m 0
  obtain ⟨hs, he, hd⟩ := create_window_info_fields date_str (List.range' a (m + 1))
    all_hourly_data source
  refine ⟨?_, ?_, ?_⟩
  · rw [hs, hhead]
  · rw [he, hlast]
    omega
  · rw [hd, List.length_range']

theorem goodwin_of_flush (P : Nat → Prop) (required : Nat) (date_str : String)
    (all_hourly_data : List HourlyWeather) (source : String) (a n : Nat)
    (acc : List FlyableWindowInfo) (hn : 1 ≤ n)
    (hPseq : ∀ x ∈ List.range' a n, P x)
    (hacc : ∀ w ∈ acc, GoodWin P required w) :
    ∀ w ∈ (if required ≤ (List.range' a n).length then
        acc ++ [create_window_info date_str (List.range' a n) all_hourly_data source]
      else acc), GoodWin P required w := by
  intro w hw
  by_cases hreq : required ≤ (List.range' a n).length
  · rw [if_pos hreq] at hw
    rcases List.mem_append.mp hw with h | h
    · exact hacc w h
    · rw [List.mem_singleton] at h
      subst h
      obtain ⟨hs, he, hd⟩ := create_window_range date_str all_hourly_data source a n hn
      rw [List.length_range'] at hreq
      refine ⟨?_, ?_, ?_, ?_, ?_⟩
      · rw [hs]
        exact hPseq a (mem_range'_of_bounds (le_refl a) (by omega))
      · rw [he]
        exact hPseq (a + n - 1) (mem_range'_of_bounds (by omega) (by omega))
      · rw [hs, he]
        omega
      · rw [hs, he, hd]
        omega
      · rw [hd]
        exact hreq
  · rw [if_neg hreq] at hw
    exact hacc w hw

theorem fcwGo_good (P : Nat → Prop) (date_str : String) (required : Nat)
    (all_hourly_data : List HourlyWeather) (source : String) :
    ∀ (rest : List Nat) (a n : Nat) (acc : List FlyableWindowInfo),
      1 ≤ n →
      (∀ x ∈ List.range' a n, P x) →
      (∀ x ∈ rest, P x) →
      (∀ w ∈ acc, GoodWin P required w) →
      ∀ w ∈ fcwGo date_str required all_hourly_data source rest (List.range' a n) acc,
        GoodWin P required w := by
  intro rest
  induction rest with
  | nil =>
    intro a n acc hn hPseq hPrest hacc w hw
    rw [fcwGo] at hw
    exact goodwin_of_flush P required date_str all_hourly_data source a n acc hn hPseq hacc w hw
  | cons x rest ih =>
    intro a n acc hn hPseq hPrest hacc w hw
    rw [fcwGo] at hw
    obtain ⟨m, rfl⟩ : ∃ m, n = m + 1 := ⟨n - 1, by omega⟩
    rw [range'_getLastD a m 0] at hw
    by_cases hx : x = a + m + 1
    · rw [if_pos hx] at hw
      have hconcat : List.range' a (m + 1) ++ [x] = List.range' a (m + 2) := by
        rw [hx]
        exact (List.range'_1_concat a (m + 1)).symm
      rw [hconcat] at hw
      refine ih a (m + 2) acc (by omega) ?_ ?_ hacc w hw
      · intro y hy
        obtain ⟨hy1, hy2⟩ := mem_range'_bounds hy
        by_cases hcase : y = a + m + 1
        · subst hcase
          rw [← hx]
          exact hPrest x (List.mem_cons_self x rest)
        · exact hPseq y (mem_range'_of_bounds hy1 (by omega))
      · intro y hy
        exact hPrest y (List.mem_cons_of_mem x hy)
    · rw [if_neg hx] at hw
      have hx1 : [x] = List.range' x 1 := by simp
      rw [hx1] at hw
      refine ih x 1 _ (le_refl 1) ?_ ?_ ?_ w hw
      · intro y hy
        rw [List.range'_one, List.mem_singleton] at hy
        rw [hy]
        exact hPrest x (List.mem_cons_self x rest)
      · intro y hy
        exact hPrest y (List.mem_cons_of_mem x hy)
      · exact goodwin_of_flush P required date_str all_hourly_data source a (m + 1) acc
          (by omega) hPseq hacc

theorem find_continuous_windows_good (P : Nat → Prop) (date_str : String)
    (flyable_hours : List Nat) (required : Nat) (all_hourly_data : List HourlyWeather)
    (source : String) (ws : List FlyableWindowInfo)
    (hP : ∀ x ∈ flyable_hours, P x)
    (h : find_continuous_windows date_str flyable_hours required all_hourly_data source
      = some ws) :
    ∀ w ∈ ws, GoodWin P required w := by
  unfold find_continuous_windows at h
  by_cases hl : flyable_hours.length < required
  · rw [if_pos hl] at h
    obtain rfl : ([] : List FlyableWindowInfo) = ws := Option.some.inj h
    intro w hw
    cases hw
  · rw [if_neg hl] at h
    cases hs : sortLe (fun a b => decide (a ≤ b)) flyable_hours with
    | nil =>
      rw [hs] at h
      cases h
    | cons h0 rest =>
      rw [hs] at h
      obtain rfl := Option.some.inj h
      have hmem : ∀ x ∈ h0 :: rest, P x := by
        intro x hx
        apply hP
        rw [← mem_sortLe (fun a b => decide (a ≤ b)) x flyable_hours, hs]
        exact hx
      have h01 : [h0] = List.range' h0 1 := by simp
      rw [h01]
      refine fcwGo_good P date_str required all_hourly_data source rest h0 1 []
        (le_refl 1) ?_ ?_ ?_
      · intro y hy
        rw [List.range'_one, List.mem_singleton] at hy
        rw [hy]
        exact hmem h0 (List.mem_cons_self h0 rest)
      · intro y hy
        exact hmem y (List.mem_cons_of_mem h0 hy)
      · intro w hw
        cases hw

theorem goodwin_source_update (P : Nat → Prop) (required : Nat) (w : FlyableWindowInfo)
    (s : String) (h : GoodWin P required w) : GoodWin P required { w with source := s } := h

theorem find_flyable_hours_bound (location : Location)
    (ow_day_data vc_day_data : List HourlyWeather) (x : Nat)
    (hx : x ∈ (find_flyable_hours_for_day location ow_day_data vc_day_data).1 ∨
      x ∈ (find_flyable_hours_for_day location ow_day_data vc_day_data).2.1 ∨
      x ∈ (find_flyable_hours_for_day location ow_day_data vc_day_data).2.2) :
    location.time_window_start ≤ x ∧ x ≤ location.time_window_end := by
  have hmem : x ∈ List.range' location.time_window_start
      (location.time_window_end + 1 - location.time_window_start) := by
    rcases hx with h | h | h <;>
      exact (List.mem_filter.mp h).1
  have hb := mem_range'_bounds hmem
  omega

theorem analyze_day_good (location : Location) (date_str : String)
    (ow_day_data vc_day_data : List HourlyWeather) (ws : List FlyableWindowInfo) (n : Nat)
    (h : analyze_day location date_str ow_day_data vc_day_data = some (ws, n)) :
    ∀ w ∈ ws,
      GoodWin (fun x => location.time_window_start ≤ x ∧ x ≤ location.time_window_end)
        location.required_conditions_duration_hours w := by
  simp only [analyze_day] at h
  split at h
  · cases h
  · rename_i raw_windows heq
    rw [Option.some.injEq, Prod.mk.injEq] at h
    obtain ⟨hws, -⟩ := h
    intro w hw
    rw [← hws] at hw
    obtain ⟨w0, hw0, rfl⟩ := List.mem_map.mp hw
    apply goodwin_source_update
    refine find_continuous_windows_good
      (fun x => location.time_window_start ≤ x ∧ x ≤ location.time_window_end)
      date_str _ _ _ _ raw_windows ?_ heq w0 hw0
    intro x hxmem
    rw [mem_sortLe] at hxmem
    rw [List.mem_dedup, List.append_assoc, List.mem_append, List.mem_append] at hxmem
    exact find_flyable_hours_bound location ow_day_data vc_day_data x hxmem

theorem analyze_days_good (location : Location) (ow_hourly vc_hourly : List HourlyWeather)
    (dates : List String) (ws : List FlyableWindowInfo) (n : Nat)
    (h : analyze_days location ow_hourly vc_hourly dates = some (ws, n)) :
    ∀ w ∈ ws,
      GoodWin (fun x => location.time_window_start ≤ x ∧ x ≤ location.time_window_end)
        location.required_conditions_duration_hours w := by
  induction dates generalizing ws n with
  | nil =>
    rw [analyze_days, Option.some.injEq, Prod.mk.injEq] at h
    obtain ⟨hws, -⟩ := h
    rw [← hws]
    intro w hw
    cases hw
  | cons d rest ih =>
    rw [analyze_days] at h
    split at h
    · cases h
    · rename_i ws1 n1 heq1
      split at h
      · cases h
      · rename_i ws2 n2 heq2
        rw [Option.some.injEq, Prod.mk.injEq] at h
        obtain ⟨hws, -⟩ := h
        rw [← hws]
        intro w hw
        rcases List.mem_append.mp hw with hw1 | hw2
        · exact analyze_day_good location d _ _ ws1 n1 heq1 w hw1
        · exact ih ws2 n2 heq2 w hw2

theorem set_current_conditions_windows (result : FullForecastAnalysis)
    (ow_hourly vc_hourly : List HourlyWeather) (now : Timestamp) :
    (set_current_conditions result ow_hourly vc_hourly now).flyable_windows
      = result.flyable_windows := by
  unfold set_current_conditions
  cases ow_hourly.find? (fun h => h.date_str == now.date_str && h.hour == now.hour) with
  | some hr => rfl
  | none =>
    cases vc_hourly.find? (fun h => h.date_str == now.date_str && h.hour == now.hour) with
    | some hr => rfl
    | none => rfl

theorem set_current_conditions_total (result : FullForecastAnalysis)
    (ow_hourly vc_hourly : List HourlyWeather) (now : Timestamp) :
    (set_current_conditions result ow_hourly vc_hourly now).total_flyable_hours
      = result.total_flyable_hours := by
  unfold set_current_conditions
  cases ow_hourly.find? (fun h => h.date_str == now.date_str && h.hour == now.hour) with
  | some hr => rfl
  | none =>
    cases vc_hourly.find? (fun h => h.date_str == now.date_str && h.hour == now.hour) with
    | some hr => rfl
    | none => rfl

theorem set_current_conditions_has (result : FullForecastAnalysis)
    (ow_hourly vc_hourly : List HourlyWeather) (now : Timestamp) :
    (set_current_conditions result ow_hourly vc_hourly now).has_flyable_conditions
      = result.has_flyable_conditions := by
  unfold set_current_conditions
  cases ow_hourly.find? (fun h => h.date_str == now.date_str && h.hour == now.hour) with
  | some hr => rfl
  | none =>
    cases vc_hourly.find? (fun h => h.date_str == now.date_str && h.hour == now.hour) with
    | some hr => rfl
    | none => rfl

theorem set_current_conditions_reasons (result : FullForecastAnalysis)
    (ow_hourly vc_hourly : List HourlyWeather) (now : Timestamp) :
    (set_current_conditions result ow_hourly vc_hourly now).rejection_reasons
      = result.rejection_reasons := by
  unfold set_current_conditions
  cases ow_hourly.find? (fun h => h.date_str == now.date_str && h.hour == now.hour) with
  | some hr => rfl
  | none =>
    cases vc_hourly.find? (fun h => h.date_str == now.date_str && h.hour == now.hour) with
    | some hr => rfl
    | none => rfl

theorem analyze_windows_good (location : Location) (ow vc : Option Forecast)
    (now : Timestamp) (r : FullForecastAnalysis)
    (h : analyze_full_forecast location ow vc now = some r) :
    ∀ w ∈ r.flyable_windows,
      GoodWin (fun x => location.time_window_start ≤ x ∧ x ≤ location.time_window_end)
        location.required_conditions_duration_hours w := by
  cases ow with
  | none =>
    cases vc with
    | none =>
      simp only [analyze_full_forecast] at h
      obtain rfl := Option.some.inj h
      intro w hw
      exact absurd hw (List.not_mem_nil w)
    | some vc_data =>
      simp only [analyze_full_forecast] at h
      obtain rfl := Option.some.inj h
      intro w hw
      exact absurd hw (List.not_mem_nil w)
  | some ow_data =>
    cases vc with
    | none =>
      simp only [analyze_full_forecast] at h
      obtain rfl := Option.some.inj h
      intro w hw
      exact absurd hw (List.not_mem_nil w)
    | some vc_data =>
      simp only [analyze_full_forecast] at h
      split at h
      · obtain rfl := Option.some.inj h
        intro w hw
        exact absurd hw (List.not_mem_nil w)
      · split at h
        · obtain rfl := Option.some.inj h
          intro w hw
          exact absurd hw (List.not_mem_nil w)
        · split at h
          · cases h
          · rename_i allW totalH heq
            obtain rfl := Option.some.inj h
            intro w hw
            rw [set_current_conditions_windows] at hw
            have hw' : w ∈ sortLe windowLe allW := hw
            rw [mem_sortLe] at hw'
            exact analyze_days_good location _ _ _ allW totalH heq w hw'

/-- C6: in every analysis run with a required duration of at least one
hour, every returned window lasts at least
`required_conditions_duration_hours` hours. -/
theorem windows_min_duration (location : Location) (ow vc : Option Forecast)
    (now : Timestamp) (r : FullForecastAnalysis)
    (hreq : 1 ≤ location.required_conditions_duration_hours)
    (h : analyze_full_forecast location ow vc now = some r) :
    ∀ w ∈ r.flyable_windows,
      location.required_conditions_duration_hours ≤ w.duration_hours :=
  fun w hw => (analyze_windows_good location ow vc now r h w hw).2.2.2.2

set_option maxRecDepth 10000 in
theorem windows_min_duration_witness :
    locScenario.required_conditions_duration_hours ≤ wScenario.duration_hours :=
  windows_min_duration locScenario (some owScenario) (some vcScenario) nowScenario rScenario
    (by decide) (by decide) wScenario (by decide)

/-- C9: every window an analysis produces satisfies
`time_window_start ≤ start_hour ≤ end_hour ≤ time_window_end` and
`duration_hours = end_hour - start_hour + 1`, so no window contains an
hour outside the configured daily time window. -/
theorem windows_within_time_window (location : Location) (ow vc : Option Forecast)
    (now : Timestamp) (r : FullForecastAnalysis)
    (h : analyze_full_forecast location ow vc now = some r) :
    ∀ w ∈ r.flyable_windows,
      location.time_window_start ≤ w.start_hour ∧ w.start_hour ≤ w.end_hour ∧
      w.end_hour ≤ location.time_window_end ∧
      w.duration_hours = w.end_hour - w.start_hour + 1 :=
  fun w hw =>
    have g := analyze_windows_good location ow vc now r h w hw
    ⟨g.1.1, g.2.2.1, g.2.1.2, g.2.2.2.1⟩

set_option maxRecDepth 10000 in
theorem windows_within_time_window_witness :
    locScenario.time_window_start ≤ wScenario.start_hour ∧
    wScenario.start_hour ≤ wScenario.end_hour ∧
    wScenario.end_hour ≤ locScenario.time_window_end ∧
    wScenario.duration_hours = wScenario.end_hour - wScenario.start_hour + 1 :=
  windows_within_time_window locScenario (some owScenario) (some vcScenario) nowScenario
    rScenario (by decide) wScenario (by decide)

/-- C8 counterexample: two analyzer calls with identical rules and
identical provider forecasts but different clock readings produce
different results (the `analysis_time` field follows the clock), so the
analysis is not independent of when each call runs. -/
theorem analyze_clock_dependent_cex :
    analyze_full_forecast locScenario none none { date_str := "2024-01-01", hour := 8 } ≠
    analyze_full_forecast locScenario none none { date_str := "2024-01-01", hour := 9 } := by
  decide

/-- C8 (amended): the analyzer is a deterministic pure function of its
inputs and the clock reading; with equal rules and forecasts but
different clock readings the decision outputs (window list, total
flyable hours, flyability flag, rejection reasons) still coincide, while
the analysis timestamp, early-return forecast horizon, and
current-conditions fields may follow the clock. -/
theorem analyze_core_clock_independent (location : Location) (ow vc : Option Forecast)
    (now now' : Timestamp) :
    (analyze_full_forecast location ow vc now).map (fun r =>
      (r.flyable_windows, r.total_flyable_hours, r.has_flyable_conditions,
        r.rejection_reasons)) =
    (analyze_full_forecast location ow vc now').map (fun r =>
      (r.flyable_windows, r.total_flyable_hours, r.has_flyable_conditions,
        r.rejection_reasons)) := by
  cases ow with
  | none => cases vc <;> rfl
  | some ow_data =>
    cases vc with
    | none => rfl
    | some vc_data =>
      simp only [analyze_full_forecast]
      by_cases h1 : parse_all_hourly_data ow_data "openweather" = [] ∨
          parse_all_hourly_data vc_data "visualcrossing" = []
      · rw [if_pos h1, if_pos h1]
        rfl
      · rw [if_neg h1, if_neg h1]
        by_cases h2 : sortLe strLe
            (((parse_all_hourly_data ow_data "openweather").map fun h => h.date_str).dedup.filter
              fun d =>
                ((parse_all_hourly_data vc_data "visualcrossing").map
                  fun h => h.date_str).dedup.contains d) = []
        · rw [if_pos h2, if_pos h2]
          rfl
        · rw [if_neg h2, if_neg h2]
          split
          · rfl
          · simp only [Option.map_some', Option.some.injEq, Prod.mk.injEq]
            refine ⟨?_, ?_, ?_, ?_⟩
            · rw [set_current_conditions_windows, set_current_conditions_windows]
            · rw [set_current_conditions_total, set_current_conditions_total]
            · rw [set_current_conditions_has, set_current_conditions_has]
            · rw [set_current_conditions_reasons, set_current_conditions_reasons]

end TWWB
